import Mathlib

/-!
Shallow embedding of the nova-docker driver
(novadocker/virt/docker/driver.py) together with theorems checking the
natural-language specification against it.

The container engine is modelled as a record of the data the driver reads
from it (container list, inspection results, the outcome of a stop call);
driver operations are pure functions returning an error-or-unit result
paired with the ordered trace of mutating calls (engine calls, VIF driver
calls and host filesystem commands) they issue.  External failures in
collaborator calls are injected through explicit parameters.
-/

set_option maxRecDepth 10000

namespace NovaDocker

/-- Python string slicing s[n:], as performed by the driver on container and
processor names. -/
def strDrop (s : String) (n : Nat) : String := ⟨s.data.drop n⟩

/-- A container entry as returned by the engine container list: path-style
names (first character stripped by the driver) plus the opaque id. -/
structure Ct where
  names : List String
  id : String
  deriving DecidableEq

/-- The inspection record of a container, holding the fields the driver
reads from inspect_container. -/
structure Inspection where
  id : String
  pid : Nat
  running : Bool
  memory : Nat
  cpuShares : Nat
  deriving DecidableEq

/-- Outcome of an engine stop call, driving the branches of the driver
stop-container helper. -/
inductive StopOutcome
  | ok
  | needsUnpause
  | apiError (msg : String)
  deriving DecidableEq

/-- The engine-side data the driver reads: the container list, the
inspection record per container id, and the behaviour of stop. -/
structure Engine where
  containers : List Ct
  inspectById : String → Inspection
  stopOutcome : String → StopOutcome

/-- Configuration options of the driver that the embedded code reads. -/
structure Config where
  docker_cpu_mode : String
  docker_system_cpuset : String
  dir_volume_path : String
  snapshots_directory : String
  deriving DecidableEq

/-- Host-side data consulted by the driver: processor inventory, the parsed
system-reserved processor set, directory existence, netns dir existence. -/
structure Host where
  cpus : List Nat
  reserved : List Nat
  isdir : String → Bool
  netnsExists : Bool

/-- An instance as seen by the driver: name, hostname, and the flavor
fields the embedded code reads. -/
structure Instance where
  name : String
  hostname : String
  vcpus : Nat
  memory_mb : Nat
  root_gb : Nat
  ephemeral_gb : Nat
  deriving DecidableEq

/-- The destination flavor of a migration, with the disk sizes checked by
migrate_disk_and_power_off. -/
structure Flavor where
  root_gb : Nat
  ephemeral_gb : Nat
  deriving DecidableEq

/-- A virtual interface in the network info: identifier, its assigned
address and the DNS servers it declares. -/
structure Vif where
  vid : String
  ip : String
  dns : List String
  deriving DecidableEq

/-- The three optional volume-role declarations read from image metadata
properties (also the shape of the result of get_dir_volume). -/
structure DirVolumes where
  log_volume : Option String
  data_volume : Option String
  other_volume : Option String
  deriving DecidableEq

/-- Image metadata: an optional properties dictionary holding the
volume-role keys. -/
structure ImageMeta where
  properties : Option DirVolumes
  deriving DecidableEq

/-- Steps of the migration export sequence at which an external failure can
be injected. -/
inductive MigStep
  | mkdirStep
  | commitStep
  | getImageStep
  | writeTarStep
  | copyStep
  deriving DecidableEq

/-- Python-level exceptions surfacing from the embedded driver code. -/
inductive PyErr
  | instanceNotFound (name : String)
  | deployFailure (msg : String) (name : String)
  | apiError (msg : String)
  | runtimeError (cid : String)
  | indexError
  | resizeRollback
  | unboundLocal (name : String)
  | typeErrorMultipleValues (f : String) (p : String)
  | typeErrorOther (f : String)
  | stepFail (s : MigStep)
  deriving DecidableEq

/-- Mutating calls issued by the driver: engine mutations, VIF-driver calls
and host commands, in issue order. -/
inductive Effect
  | stop (cid : String) (timeout : Nat)
  | unpause (cid : String)
  | kill (cid : String)
  | removeContainer (cid : String) (force : Bool) (v : Bool)
  | createContainer (image : String) (name : String) (networkDisabled : Bool)
      (volumes : List String) (binds : List String)
  | updateStart (cid : String) (memLimit : Nat) (networkMode : String)
      (privileged : Bool) (dns : Option (List String)) (cpuShares : Option Nat)
      (cpuset : Option String) (volumesFrom : Option String)
  | commit (cid : String) (repository : String) (tag : String)
  | removeImage (name : String)
  | plugVif (vid : String)
  | unplugVif (vid : String)
  | attachVif (vid : String)
  | teardownNetwork (cid : String)
  | executeMkdir (path : String)
  | writeFile (path : String)
  | symlinkNetns (pid : Nat) (cid : String)
  | loUp (cid : String)
  | rmtree (path : String)
  | copyImage (src : String) (dst : String) (host : String)
  deriving DecidableEq

/-- Exact-name test used by the driver loops: the first listed name with
its leading slash stripped equals the instance name. -/
def ctNameIs (ct : Ct) (name : String) : Bool :=
  strDrop (ct.names.headD "") 1 == name

/-- Embedding of DockerDriver._find_container_by_name: scan the container
list for the exact stripped-name match and return its inspection record;
absence (including an engine 404) yields the empty result.  The engine-side
name filter only narrows the scanned list and never drops an exact match,
so it is modelled as the identity. -/
def find_container_by_name (eng : Engine) (name : String) : Option Inspection :=
  (eng.containers.find? (fun ct => ctNameIs ct name)).map (fun ct => eng.inspectById ct.id)

/-- Embedding of DockerDriver._get_container_id: the Id field of the
resolved inspection record, or the empty result when absent. -/
def get_container_id (eng : Engine) (inst : Instance) : Option String :=
  (find_container_by_name eng inst.name).map Inspection.id

/-- Python truthiness of an optional string id: None and the empty string
are falsy. -/
def optTruthy (o : Option String) : Option String :=
  match o with
  | none => none
  | some s => if s == "" then none else some s

/-- Embedding of DockerDriver._exist_container: scan the full container
list for the exact stripped-name match. -/
def exist_container (eng : Engine) (name : String) : Bool :=
  eng.containers.any (fun ct => ctNameIs ct name)

/-- Power states reported by get_info. -/
inductive PowerState
  | running
  | shutdown
  deriving DecidableEq

/-- The info dictionary built by get_info. -/
structure InfoDict where
  max_mem : Nat
  mem : Nat
  num_cpu : Nat
  cpu_time : Nat
  state : PowerState
  deriving DecidableEq

/-- Embedding of DockerDriver.get_info: resolve by name, raise
InstanceNotFound when the lookup is empty, otherwise report memory,
cpu-share derived vcpu count and power state from the record. -/
def get_info (eng : Engine) (inst : Instance) : Except PyErr InfoDict :=
  match find_container_by_name eng inst.name with
  | none => .error (.instanceNotFound inst.name)
  | some c =>
      .ok { max_mem := c.memory, mem := c.memory, num_cpu := c.cpuShares / 1024,
            cpu_time := 0,
            state := if c.running then .running else .shutdown }

/-- Embedding of DockerDriver._get_cpu_shares: vcpus times the cgroup 1024
multiplier under cpuset or mix mode, unset otherwise. -/
def get_cpu_shares (cfg : Config) (inst : Instance) : Option Nat :=
  if cfg.docker_cpu_mode == "cpuset" || cfg.docker_cpu_mode == "mix" then
    some (inst.vcpus * 1024)
  else
    none

/-- Modelled from the spec: cpuset_info.CpusetStatsMap.less_set_cpus (the
cpuset_info module is not part of the given source tree).  It requests
cpu_num processors from a CPU allocation map that excludes the configured
system-reserved set; entries carry the host naming cpuN, whose three-byte
marker the driver strips. -/
def less_set_cpus (cpus reserved : List Nat) (cpu_num : Nat) : List String :=
  ((cpus.filter (fun c => !(reserved.contains c))).take cpu_num).map
    (fun c => "cpu" ++ toString c)

/-- Modelled from the spec: cpuset_info.CpusetStatsMap.get_unsystem_cpu (the
cpuset_info module is not part of the given source tree).  It returns the
full non-system processor set, entries named cpuN. -/
def get_unsystem_cpu (cpus reserved : List Nat) : List String :=
  (cpus.filter (fun c => !(reserved.contains c))).map (fun c => "cpu" ++ toString c)

/-- Embedding of the comma-join loop of DockerDriver._get_cpu_set: the head
entry sliced from byte 3, then each further entry appended after a comma;
the empty list raises IndexError in the source, modelled as the empty
result here. -/
def join_set_str : List String → Option String
  | [] => none
  | h :: t => some (t.foldl (fun acc cpu => acc ++ "," ++ strDrop cpu 3) (strDrop h 3))

/-- Result of the cpu-set computation: unset (Python None), a processor
string, or the IndexError escape of the join loop on an empty list. -/
inductive CpuSetResult
  | unset
  | val (s : String)
  | indexError
  deriving DecidableEq

/-- Conversion of the join-loop result into a cpu-set result. -/
def ofJoin : Option String → CpuSetResult
  | none => .indexError
  | some s => .val s

/-- Embedding of DockerDriver._get_cpu_set: under cpuset or mix mode join
vcpus processors drawn from the allocation map excluding the reserved set;
otherwise, with a configured (non-sentinel) system set, join the full
non-system set; otherwise unset. -/
def get_cpu_set (cfg : Config) (host : Host) (inst : Instance) : CpuSetResult :=
  if cfg.docker_cpu_mode == "cpuset" || cfg.docker_cpu_mode == "mix" then
    ofJoin (join_set_str (less_set_cpus host.cpus host.reserved inst.vcpus))
  else
    if cfg.docker_system_cpuset != "-1" then
      ofJoin (join_set_str (get_unsystem_cpu host.cpus host.reserved))
    else
      .unset

/-- Declarative comma join used to state the cpu-set theorems. -/
def commaJoin : List String → Option String
  | [] => none
  | h :: t => some (t.foldl (fun acc s => acc ++ "," ++ s) h)

/-- Embedding of DockerDriver._get_memory_limit_bytes on the rich instance
object path: flavor memory in MiB scaled to bytes. -/
def get_memory_limit_bytes (inst : Instance) : Nat :=
  inst.memory_mb * 1048576

/-- Modelled from the spec: network.find_dns (the network module is not
part of the given source tree) resolves the DNS server list from the
network info. -/
def find_dns (ninfo : List Vif) : List String :=
  ninfo.flatMap Vif.dns

/-- Modelled from the spec: network.find_first_ip (the network module is
not part of the given source tree) returns the first assigned address of
the instance from the network info. -/
def find_first_ip (ninfo : List Vif) : String :=
  ((ninfo.map Vif.ip).headD "")

/-- Embedding of DockerDriver._stop_container: stop with the timeout capped
below at 5; when the engine demands an unpause first, unpause and stop
again with the uncapped timeout; any other engine error propagates. -/
def stop_container (eng : Engine) (cid : String) (timeout : Nat) :
    Except PyErr Unit × List Effect :=
  match eng.stopOutcome cid with
  | .ok => (.ok (), [Effect.stop cid (max timeout 5)])
  | .needsUnpause =>
      (.ok (), [Effect.stop cid (max timeout 5), Effect.unpause cid, Effect.stop cid timeout])
  | .apiError m => (.error (.apiError m), [Effect.stop cid (max timeout 5)])

/-- Embedding of DockerDriver._network_delete: tear the namespace down and
unplug the interfaces; every exception is swallowed, so the helper is
total. -/
def network_delete (ninfo : List Vif) (cid : String) : List Effect :=
  Effect.teardownNetwork cid :: ninfo.map (fun v => Effect.unplugVif v.vid)

/-- Embedding of DockerDriver.cleanup: with no container, only unplug the
interfaces; otherwise force-remove the container and tear the network
down. -/
def cleanup (eng : Engine) (inst : Instance) (ninfo : List Vif) :
    Except PyErr Unit × List Effect :=
  match optTruthy (get_container_id eng inst) with
  | none => (.ok (), ninfo.map (fun v => Effect.unplugVif v.vid))
  | some cid =>
      (.ok (), Effect.removeContainer cid true false :: network_delete ninfo cid)

/-- Embedding of DockerDriver._destroy_volume_container: when the companion
container exists, force-remove it with its anonymous volumes and remove
whichever of the three role directories exist on disk; otherwise do
nothing. -/
def destroy_volume_container (cfg : Config) (eng : Engine) (host : Host)
    (inst : Instance) (ninfo : List Vif) : List Effect :=
  let nova_name := inst.name
  let first_ip := find_first_ip ninfo
  let vol_ct_name := nova_name ++ "_vol"
  if exist_container eng vol_ct_name then
    let host_dir := cfg.dir_volume_path
    let log_host_dir := host_dir ++ "/log/" ++ nova_name ++ "_" ++ first_ip
    let data_host_dir := host_dir ++ "/data/" ++ nova_name ++ "_" ++ first_ip
    let other_host_dir := host_dir ++ "/other/" ++ nova_name ++ "_" ++ first_ip
    Effect.removeContainer vol_ct_name true true ::
      ((if host.isdir log_host_dir then [Effect.rmtree log_host_dir] else []) ++
       (if host.isdir data_host_dir then [Effect.rmtree data_host_dir] else []) ++
       (if host.isdir other_host_dir then [Effect.rmtree other_host_dir] else []))
  else []

/-- Embedding of the bounded pid-discovery loop of
DockerDriver._find_container_pid, indexed by the current iteration counter;
the inspect stream yields the pid of the record when inspect returns one.
The one-second sleep between polls is wall-clock behaviour outside the
model. -/
def find_container_pid_go (insp : Nat → Option Nat) (n : Nat) : Option Nat :=
  if n > 15 then none
  else
    match insp n with
    | some pid => if pid ≠ 0 then some pid else find_container_pid_go insp (n + 1)
    | none => find_container_pid_go insp (n + 1)
termination_by 16 - n
decreasing_by
  all_goals simp_all
  all_goals omega

/-- Embedding of DockerDriver._find_container_pid started at iteration
zero. -/
def find_container_pid (insp : Nat → Option Nat) : Option Nat :=
  find_container_pid_go insp 0

/-- Keep an inspected pid only when it is assigned (non-zero); used to
state the pid-discovery theorem. -/
def keepNonzero (o : Option Nat) : Option Nat :=
  match o with
  | some p => if p ≠ 0 then some p else none
  | none => none

/-- Display of the exceptions the network-attachment body can raise, as
interpolated into the deploy-failure message. -/
def errMessage : PyErr → String
  | .runtimeError cid => "Cannot find any PID under container \"" ++ cid ++ "\""
  | _ => ""

/-- Embedding of DockerDriver._attach_vifs: nothing to do without network
info or without a container; otherwise ensure the netns directory, poll for
the container pid (raising RuntimeError when it never appears), symlink the
namespace, bring loopback up and attach each interface in order. -/
def attach_vifs (eng : Engine) (host : Host) (insp : Nat → Option Nat)
    (inst : Instance) (ninfo : List Vif) : Except PyErr Unit × List Effect :=
  if ninfo.isEmpty then (.ok (), [])
  else
    match optTruthy (get_container_id eng inst) with
    | none => (.ok (), [])
    | some cid =>
        let t0 := if host.netnsExists then [] else [Effect.executeMkdir "/var/run/netns"]
        match find_container_pid insp with
        | none => (.error (.runtimeError cid), t0)
        | some nspid =>
            (.ok (), t0 ++ [Effect.symlinkNetns nspid cid, Effect.loUp cid] ++
              ninfo.map (fun v => Effect.attachVif v.vid))

/-- The try-block body of the network setup in DockerDriver._start_container:
plug every interface then run the attach sequence; an externally injected
VIF-driver failure is threaded through vifFail.  The result pairs the
effects the body issued with the exception text it raised, if any. -/
def start_net_try (eng : Engine) (host : Host) (insp : Nat → Option Nat)
    (inst : Instance) (ninfo : List Vif) (vifFail : Option String) :
    List Effect × Option String :=
  match vifFail with
  | some msg => ([], some msg)
  | none =>
      let plugT := ninfo.map (fun v => Effect.plugVif v.vid)
      match attach_vifs eng host insp inst ninfo with
      | (.ok _, t) => (plugT ++ t, none)
      | (.error e, t) => (plugT ++ t, some (errMessage e))

/-- Embedding of DockerDriver._start_container: compute the start-time
host configuration (memory, network mode none, privileged, DNS, cpu
shares, cpu set, volumes-from) and issue the start; afterwards, with
network info present, run the network setup, and on its failure kill the
container and raise a deploy failure naming the instance and carrying the
cause. -/
def start_container (eng : Engine) (cfg : Config) (host : Host)
    (insp : Nat → Option Nat) (cid : String) (inst : Instance)
    (ninfo : List Vif) (vifFail : Option String) :
    Except PyErr Unit × List Effect :=
  let mem_limit := get_memory_limit_bytes inst
  let dns0 := find_dns ninfo
  let dns_list : Option (List String) := if dns0.isEmpty then none else some dns0
  let cpu_shares := get_cpu_shares cfg inst
  match get_cpu_set cfg host inst with
  | .indexError => (.error .indexError, [])
  | cs =>
      let cpusetArg : Option String := match cs with | .val s => some s | _ => none
      let vol_ct_name := inst.name ++ "_vol"
      let volumes_from := if exist_container eng vol_ct_name then some vol_ct_name else none
      let t0 := [Effect.updateStart cid mem_limit "none" true dns_list cpu_shares
                   cpusetArg volumes_from]
      if ninfo.isEmpty then (.ok (), t0)
      else
        match start_net_try eng host insp inst ninfo vifFail with
        | (bt, none) => (.ok (), t0 ++ bt)
        | (bt, some msg) =>
            (.error (.deployFailure ("Cannot setup network: " ++ msg) inst.name),
             t0 ++ bt ++ [Effect.kill cid])

/-- Embedding of DockerDriver.destroy: no-op when the lookup is empty;
otherwise stop the container, run cleanup, then destroy the companion
volume container. -/
def destroy (eng : Engine) (cfg : Config) (host : Host) (inst : Instance)
    (ninfo : List Vif) : Except PyErr Unit × List Effect :=
  match optTruthy (get_container_id eng inst) with
  | none => (.ok (), [])
  | some cid =>
      match stop_container eng cid 10 with
      | (.error e, t1) => (.error e, t1)
      | (.ok _, t1) =>
          match cleanup eng inst ninfo with
          | (.error e, t2) => (.error e, t1 ++ t2)
          | (.ok _, t2) =>
              (.ok (), t1 ++ t2 ++ destroy_volume_container cfg eng host inst ninfo)

/-- Embedding of DockerDriver.reboot: no-op when the lookup is empty;
otherwise stop, tear the network down, and start again. -/
def reboot (eng : Engine) (cfg : Config) (host : Host) (insp : Nat → Option Nat)
    (inst : Instance) (ninfo : List Vif) (vifFail : Option String) :
    Except PyErr Unit × List Effect :=
  match optTruthy (get_container_id eng inst) with
  | none => (.ok (), [])
  | some cid =>
      match stop_container eng cid 10 with
      | (.error e, t1) => (.error e, t1)
      | (.ok _, t1) =>
          let t2 := network_delete ninfo cid
          match start_container eng cfg host insp cid inst ninfo vifFail with
          | (r, t3) => (r, t1 ++ t2 ++ t3)

/-- Embedding of DockerDriver.power_on: no-op when the lookup is empty;
otherwise start the container. -/
def power_on (eng : Engine) (cfg : Config) (host : Host) (insp : Nat → Option Nat)
    (inst : Instance) (ninfo : List Vif) (vifFail : Option String) :
    Except PyErr Unit × List Effect :=
  match optTruthy (get_container_id eng inst) with
  | none => (.ok (), [])
  | some cid => start_container eng cfg host insp cid inst ninfo vifFail

/-- Embedding of DockerDriver.power_off: no-op when the lookup is empty;
otherwise stop the container with the fixed timeout of 10 (the timeout and
retry-interval parameters of the signature are ignored by the source). -/
def power_off (eng : Engine) (inst : Instance) (_timeout _retry_interval : Nat) :
    Except PyErr Unit × List Effect :=
  match optTruthy (get_container_id eng inst) with
  | none => (.ok (), [])
  | some cid => stop_container eng cid 10

/-- Python truthiness of an optional string value: None and the empty
string are falsy, as tested by the volume-role checks. -/
def truthyS : Option String → Bool
  | none => false
  | some s => s != ""

/-- Embedding of DockerDriver._get_dir_volume: read the three optional
volume-role declarations from image metadata, keeping only truthy values;
a missing metadata object or properties dictionary yields none for every
role. -/
def get_dir_volume (meta : Option ImageMeta) : DirVolumes :=
  match meta with
  | none => { log_volume := none, data_volume := none, other_volume := none }
  | some m =>
      let props := m.properties.getD
        { log_volume := none, data_volume := none, other_volume := none }
      { log_volume := if truthyS props.log_volume then props.log_volume else none,
        data_volume := if truthyS props.data_volume then props.data_volume else none,
        other_volume := if truthyS props.other_volume then props.other_volume else none }

/-- Embedding of DockerDriver._create_volume_containers: with no declared
role, return false and create nothing; otherwise collect one in-container
volume and one host bind per declared role and create the network-disabled
companion container named after the instance. -/
def create_volume_containers (cfg : Config) (inst : Instance) (image_name : String)
    (meta : Option ImageMeta) (ninfo : List Vif) : Bool × List Effect :=
  let dv := get_dir_volume meta
  if !truthyS dv.log_volume && !truthyS dv.data_volume && !truthyS dv.other_volume then
    (false, [])
  else
    let nova_name := inst.name
    let first_ip := find_first_ip ninfo
    let vol_ct_name := nova_name ++ "_vol"
    let host_dir := cfg.dir_volume_path
    let s1 : List String × List String :=
      if truthyS dv.log_volume then
        let v := dv.log_volume.getD ""
        ([v], [host_dir ++ "/log/" ++ nova_name ++ "_" ++ first_ip ++ ":" ++ v])
      else ([], [])
    let s2 : List String × List String :=
      if truthyS dv.data_volume then
        let v := dv.data_volume.getD ""
        (s1.1 ++ [v], s1.2 ++ [host_dir ++ "/data/" ++ nova_name ++ "_" ++ first_ip ++ ":" ++ v])
      else s1
    let s3 : List String × List String :=
      if truthyS dv.other_volume then
        let v := dv.other_volume.getD ""
        (s2.1 ++ [v], s2.2 ++ [host_dir ++ "/other/" ++ nova_name ++ "_" ++ first_ip ++ ":" ++ v])
      else s2
    (true, [Effect.createContainer image_name vol_ct_name true s3.1 s3.2])

/-- Result of binding a Python call against a parameter list. -/
inductive BindResult
  | ok
  | errMultiple (p : String)
  | errUnexpected (p : String)
  | errMissing (p : String)
  | errTooMany
  deriving DecidableEq

/-- Python call binding for a plain parameter list without defaults: npos
positional arguments fill the leading parameters, then each keyword
argument must name a distinct remaining parameter; naming an already
positionally-bound parameter is the multiple-values TypeError. -/
def bindArgs (params : List String) (npos : Nat) (kws : List String) : BindResult :=
  if params.length < npos then .errTooMany
  else
    match kws.find? (fun k => (params.take npos).contains k) with
    | some k => .errMultiple k
    | none =>
        match kws.find? (fun k => !(params.contains k)) with
        | some k => .errUnexpected k
        | none =>
            match (params.drop npos).find? (fun p => !(kws.contains p)) with
            | some p => .errMissing p
            | none => .ok

/-- The parameter list of DockerDriver._cleanup_migration after self. -/
def cleanup_migration_params : List String := ["migrate_src", "image_name"]

/-- Outcome of the handler call in migrate_disk_and_power_off, which passes
two positional arguments plus the keyword image_name to
_cleanup_migration: the binding decides whether the call raises before the
body (which itself swallows every error) could run. -/
def cleanup_migration_call_result : Except PyErr Unit :=
  match bindArgs cleanup_migration_params 2 ["image_name"] with
  | .ok => .ok ()
  | .errMultiple p => .error (.typeErrorMultipleValues "_cleanup_migration" p)
  | _ => .error (.typeErrorOther "_cleanup_migration")

/-- The exception raised by the except-handler body of
migrate_disk_and_power_off: evaluating the argument image_tar_name raises
UnboundLocalError when the failure preceded its assignment, and otherwise
the call binding itself decides. -/
def migrate_rollback_exception (tarBound : Bool) : Except PyErr Unit :=
  if tarBound then cleanup_migration_call_result
  else .error (.unboundLocal "image_tar_name")

/-- Embedding of excutils.save_and_reraise_exception: when the body of the
with-block raises, the original exception is dropped and the new one
propagates; otherwise the original is re-raised. -/
def save_and_reraise (original : PyErr) (body : Except PyErr Unit) : PyErr :=
  match body with
  | .ok _ => original
  | .error e2 => e2

/-- The failure exit of migrate_disk_and_power_off: the original exception
routed through the save-and-reraise block whose body runs the cleanup
call. -/
def migrate_fail (original : PyErr) (tarBound : Bool) (trace : List Effect) :
    Except PyErr Unit × List Effect :=
  (.error (save_and_reraise original (migrate_rollback_exception tarBound)), trace)

/-- Embedding of DockerDriver.migrate_disk_and_power_off: resolve the
container, reject a disk shrink before any effect, then run the export
sequence (create staging directory, commit, fetch and write the archive,
power off, transfer), with external failures in collaborator steps
injected through failAt and the except handler wrapping every failure. -/
def migrate_disk_and_power_off (eng : Engine) (cfg : Config) (inst : Instance)
    (flavor : Flavor) (dest : String) (failAt : Option MigStep) :
    Except PyErr Unit × List Effect :=
  let container_id := (get_container_id eng inst).getD ""
  let migrate_src := cfg.snapshots_directory ++ "/migrate_src/"
  let migrate_dest := cfg.snapshots_directory ++ "/migrate_dest/"
  if flavor.root_gb < inst.root_gb || flavor.ephemeral_gb < inst.ephemeral_gb then
    (.error .resizeRollback, [])
  else
    if failAt == some .mkdirStep then migrate_fail (.stepFail .mkdirStep) false []
    else
      let t1 := [Effect.executeMkdir migrate_src]
      if failAt == some .commitStep then migrate_fail (.stepFail .commitStep) false t1
      else
        let t2 := t1 ++ [Effect.commit container_id inst.name "latest"]
        if failAt == some .getImageStep then migrate_fail (.stepFail .getImageStep) false t2
        else
          let image_tar_name := migrate_src ++ inst.name ++ ".tar"
          if failAt == some .writeTarStep then migrate_fail (.stepFail .writeTarStep) true t2
          else
            let t3 := t2 ++ [Effect.writeFile image_tar_name]
            match power_off eng inst 0 0 with
            | (.error e, tp) => migrate_fail e true (t3 ++ tp)
            | (.ok _, tp) =>
                if failAt == some .copyStep then
                  migrate_fail (.stepFail .copyStep) true (t3 ++ tp)
                else
                  (.ok (), t3 ++ tp ++ [Effect.copyImage migrate_src migrate_dest dest])

/-- A default inspection record for engines that hold no data. -/
def inspZero : Inspection :=
  { id := "", pid := 0, running := false, memory := 0, cpuShares := 0 }

/-- An engine with no containers, used by the concrete witnesses. -/
def engEmpty : Engine :=
  { containers := [], inspectById := fun _ => inspZero, stopOutcome := fun _ => .ok }

/-- An engine holding the single container vm1, used by the concrete
witnesses. -/
def engVm1 : Engine :=
  { containers := [{ names := ["/vm1"], id := "cid1" }],
    inspectById := fun i =>
      { id := i, pid := 7, running := true, memory := 512, cpuShares := 2048 },
    stopOutcome := fun _ => .ok }

/-- A concrete instance record used by the witnesses. -/
def instVm1 : Instance :=
  { name := "vm1", hostname := "vm1", vcpus := 2, memory_mb := 512,
    root_gb := 10, ephemeral_gb := 0 }

/-- A concrete configuration in cpushare mode with the sentinel reserved
set, used by the witnesses. -/
def cfgShare : Config :=
  { docker_cpu_mode := "cpushare", docker_system_cpuset := "-1",
    dir_volume_path := "/os_docker_volume", snapshots_directory := "/snap" }

/-- A concrete configuration in cpuset mode with a configured reserved
set, used by the witnesses. -/
def cfgSet : Config :=
  { docker_cpu_mode := "cpuset", docker_system_cpuset := "0",
    dir_volume_path := "/os_docker_volume", snapshots_directory := "/snap" }

/-- A concrete configuration in mix mode, used by the witnesses. -/
def cfgMix : Config :=
  { docker_cpu_mode := "mix", docker_system_cpuset := "0",
    dir_volume_path := "/os_docker_volume", snapshots_directory := "/snap" }

/-- A concrete configuration in cpushare mode with a configured
(non-sentinel) reserved set, used by the witnesses. -/
def cfgShareRes : Config :=
  { docker_cpu_mode := "cpushare", docker_system_cpuset := "0",
    dir_volume_path := "/os_docker_volume", snapshots_directory := "/snap" }

/-- A concrete four-processor host reserving processor zero, with no
directories present, used by the witnesses. -/
def hostFour : Host :=
  { cpus := [0, 1, 2, 3], reserved := [0], isdir := fun _ => false,
    netnsExists := true }

instance : DecidableEq (Except PyErr Unit) := fun a b =>
  match a, b with
  | .ok _, .ok _ => isTrue rfl
  | .error e1, .error e2 =>
      if h : e1 = e2 then isTrue (by rw [h])
      else isFalse (fun hc => h (Except.error.inj hc))
  | .ok _, .error _ => isFalse (fun hc => Except.noConfusion hc)
  | .error _, .ok _ => isFalse (fun hc => Except.noConfusion hc)

/-- A destination flavor matching the current allocation, used by the
concrete witnesses. -/
def flavorOk : Flavor := { root_gb := 10, ephemeral_gb := 0 }

/-- A destination flavor shrinking the root disk, used by the concrete
witnesses. -/
def flavorSmall : Flavor := { root_gb := 5, ephemeral_gb := 0 }

theorem find_none_of_no_match (eng : Engine) (name : String)
    (h : ∀ ct ∈ eng.containers, ctNameIs ct name = false) :
    find_container_by_name eng name = none := by
  unfold find_container_by_name
  rw [List.find?_eq_none.mpr]
  · rfl
  · intro ct hct
    simp [h ct hct]

/-- C10: for an instance whose name matches no container, get_info raises
an instance-not-found error naming the instance, instead of returning an
empty or absent result. -/
theorem get_info_raises_when_absent (eng : Engine) (inst : Instance)
    (h : ∀ ct ∈ eng.containers, ctNameIs ct inst.name = false) :
    get_info eng inst = .error (.instanceNotFound inst.name) := by
  unfold get_info
  rw [find_none_of_no_match eng inst.name h]

theorem get_info_raises_when_absent_witness :
    get_info engEmpty instVm1 = .error (.instanceNotFound "vm1") :=
  get_info_raises_when_absent engEmpty instVm1
    (by intro ct hct; simp [engEmpty] at hct)

/-- C1: for an instance whose name resolves to no container, each of
destroy, reboot, power_on and power_off succeeds with an empty effect
trace: no stop, kill, remove, create or start call is issued. -/
theorem lifecycle_noop_when_absent (eng : Engine) (cfg : Config) (host : Host)
    (insp : Nat → Option Nat) (inst : Instance) (ninfo : List Vif)
    (vifFail : Option String)
    (habsent : find_container_by_name eng inst.name = none) :
    destroy eng cfg host inst ninfo = (.ok (), []) ∧
    reboot eng cfg host insp inst ninfo vifFail = (.ok (), []) ∧
    power_on eng cfg host insp inst ninfo vifFail = (.ok (), []) ∧
    power_off eng inst 0 0 = (.ok (), []) := by
  have hid : optTruthy (get_container_id eng inst) = none := by
    simp [get_container_id, habsent, optTruthy]
  refine ⟨?_, ?_, ?_, ?_⟩ <;> simp [destroy, reboot, power_on, power_off, hid]

theorem lifecycle_noop_when_absent_witness :
    destroy engEmpty cfgShare hostFour instVm1 [] = (.ok (), []) ∧
    reboot engEmpty cfgShare hostFour (fun _ => none) instVm1 [] none = (.ok (), []) ∧
    power_on engEmpty cfgShare hostFour (fun _ => none) instVm1 [] none = (.ok (), []) ∧
    power_off engEmpty instVm1 0 0 = (.ok (), []) :=
  lifecycle_noop_when_absent engEmpty cfgShare hostFour (fun _ => none) instVm1 []
    none (by decide)

/-- C5: the computed cpu-share weight is unset under cpushare mode and
equals the vcpu count multiplied by 1024 under cpuset or mix mode. -/
theorem cpu_shares_by_mode (cfg : Config) (inst : Instance) :
    (cfg.docker_cpu_mode = "cpushare" → get_cpu_shares cfg inst = none) ∧
    (cfg.docker_cpu_mode = "cpuset" ∨ cfg.docker_cpu_mode = "mix" →
      get_cpu_shares cfg inst = some (inst.vcpus * 1024)) := by
  constructor
  · intro h; simp [get_cpu_shares, h]
  · rintro (h | h) <;> simp [get_cpu_shares, h]

theorem cpu_shares_by_mode_witness :
    get_cpu_shares cfgShare instVm1 = none ∧
    get_cpu_shares cfgSet instVm1 = some 2048 ∧
    get_cpu_shares cfgMix instVm1 = some 2048 := by
  refine ⟨(cpu_shares_by_mode cfgShare instVm1).1 rfl, ?_, ?_⟩
  · have h := (cpu_shares_by_mode cfgSet instVm1).2 (Or.inl rfl)
    simpa [instVm1] using h
  · have h := (cpu_shares_by_mode cfgMix instVm1).2 (Or.inr rfl)
    simpa [instVm1] using h

/-- C3: when the destination flavor strictly shrinks the root or ephemeral
disk, migrate_disk_and_power_off raises the resize-down rollback error
with an empty effect trace: the staging directory is not created, no image
is committed, no archive is written, and no container or filesystem state
is modified. -/
theorem resize_down_rejected_before_effects (eng : Engine) (cfg : Config)
    (inst : Instance) (flavor : Flavor) (dest : String) (failAt : Option MigStep)
    (h : flavor.root_gb < inst.root_gb ∨ flavor.ephemeral_gb < inst.ephemeral_gb) :
    migrate_disk_and_power_off eng cfg inst flavor dest failAt =
      (.error .resizeRollback, []) := by
  unfold migrate_disk_and_power_off
  rcases h with h | h <;> simp [h]

theorem resize_down_rejected_before_effects_witness :
    migrate_disk_and_power_off engVm1 cfgShare instVm1 flavorSmall "desthost" none =
      (.error .resizeRollback, []) :=
  resize_down_rejected_before_effects engVm1 cfgShare instVm1 flavorSmall
    "desthost" none (Or.inl (by decide))

/-- C2 evidence of the code bug: the rollback handler of
migrate_disk_and_power_off always raises (an UnboundLocalError when the
failure precedes the archive-name assignment, otherwise the
multiple-values TypeError of the mis-arity cleanup call), so the original
failure is dropped rather than re-raised and no archive or image deletion
is ever issued; shown on concrete failures at the commit and transfer
steps. -/
theorem migrate_rollback_masks_original_error :
    (migrate_disk_and_power_off engVm1 cfgShare instVm1 flavorOk "desthost"
        (some .commitStep)).fst = .error (.unboundLocal "image_tar_name") ∧
    (migrate_disk_and_power_off engVm1 cfgShare instVm1 flavorOk "desthost"
        (some .copyStep)).fst =
      .error (.typeErrorMultipleValues "_cleanup_migration" "image_name") ∧
    (migrate_disk_and_power_off engVm1 cfgShare instVm1 flavorOk "desthost"
        (some .commitStep)).fst ≠ .error (.stepFail .commitStep) ∧
    (migrate_disk_and_power_off engVm1 cfgShare instVm1 flavorOk "desthost"
        (some .copyStep)).fst ≠ .error (.stepFail .copyStep) ∧
    Effect.removeImage "vm1" ∉
      (migrate_disk_and_power_off engVm1 cfgShare instVm1 flavorOk "desthost"
        (some .copyStep)).snd := by
  refine ⟨rfl, rfl, by decide, by decide, by decide⟩

/-- A concrete virtual interface used by the witnesses. -/
def vifA : Vif := { vid := "vifA", ip := "10.0.0.5", dns := ["8.8.8.8"] }

theorem find_container_pid_go_spec (insp : Nat → Option Nat) :
    ∀ k n, n + k = 16 → find_container_pid_go insp n =
      (List.range' n k).findSome? (fun i => keepNonzero (insp i)) := by
  intro k
  induction k with
  | zero =>
      intro n hn
      have h16 : n = 16 := by omega
      subst h16
      rw [find_container_pid_go]
      simp [List.range']
  | succ k ih =>
      intro n hn
      have hle : ¬ n > 15 := by omega
      have hstep : (List.range' n (k + 1)).findSome? (fun i => keepNonzero (insp i)) =
          match keepNonzero (insp n) with
          | some p => some p
          | none => (List.range' (n + 1) k).findSome? (fun i => keepNonzero (insp i)) := by
        rw [List.range'_succ, List.findSome?_cons]
        cases keepNonzero (insp n) <;> rfl
      rw [find_container_pid_go, if_neg hle, hstep]
      cases h : insp n with
      | none => exact ih (n + 1) (by omega)
      | some pid =>
          by_cases hp : pid = 0
          · subst hp
            exact ih (n + 1) (by omega)
          · simp [keepNonzero, hp]

/-- C9: the pid-discovery loop always terminates with at most sixteen
polls of the inspect stream, returning the first non-zero pid among polls
0 through 15 and the empty result otherwise; in the empty case the
network-attachment step raises the fatal RuntimeError naming the container
rather than proceeding (no namespace symlink, loopback or interface attach
effect is issued). -/
theorem pid_discovery_bounded (eng : Engine) (host : Host)
    (insp : Nat → Option Nat) (inst : Instance) (ninfo : List Vif) (cid : String)
    (hnonempty : ninfo ≠ [])
    (hcid : optTruthy (get_container_id eng inst) = some cid)
    (hnopid : find_container_pid insp = none) :
    (∀ g : Nat → Option Nat, find_container_pid g =
      (List.range 16).findSome? (fun i => keepNonzero (g i))) ∧
    (attach_vifs eng host insp inst ninfo).fst = .error (.runtimeError cid) ∧
    (∀ v, Effect.attachVif v ∉ (attach_vifs eng host insp inst ninfo).snd) ∧
    (∀ p c, Effect.symlinkNetns p c ∉ (attach_vifs eng host insp inst ninfo).snd) := by
  have hgen : ∀ g : Nat → Option Nat, find_container_pid g =
      (List.range 16).findSome? (fun i => keepNonzero (g i)) := by
    intro g
    rw [find_container_pid, find_container_pid_go_spec g 16 0 rfl,
      List.range_eq_range']
  have hne : ninfo.isEmpty = false := by
    cases ninfo with
    | nil => exact absurd rfl hnonempty
    | cons a l => rfl
  have hav : attach_vifs eng host insp inst ninfo =
      (.error (.runtimeError cid),
        if host.netnsExists then [] else [Effect.executeMkdir "/var/run/netns"]) := by
    rw [attach_vifs]
    simp [hne, hcid, hnopid]
  refine ⟨hgen, ?_, ?_, ?_⟩
  · rw [hav]
  · intro v
    rw [hav]
    by_cases hn : host.netnsExists <;> simp [hn]
  · intro p c
    rw [hav]
    by_cases hn : host.netnsExists <;> simp [hn]

theorem pid_discovery_bounded_witness :
    (attach_vifs engVm1 hostFour (fun _ => some 0) instVm1 [vifA]).fst =
      .error (.runtimeError "cid1") ∧
    find_container_pid (fun _ => some 0) = none := by
  have hn : find_container_pid (fun _ => some 0) = none := by
    rw [find_container_pid, find_container_pid_go_spec (fun _ => some 0) 16 0 rfl]
    decide
  have h := pid_discovery_bounded engVm1 hostFour (fun _ => some 0) instVm1 [vifA]
      "cid1" (by decide) (by decide) hn
  exact ⟨h.2.1, hn⟩

/-- C4: when the post-start network plugging and attachment step raises,
the started container is killed through the engine kill call as the last
issued effect (it is neither removed nor merely stopped), and the error
surfaced is a deploy failure that names the instance and wraps the
original cause in its message. -/
theorem start_kills_on_network_failure (eng : Engine) (cfg : Config) (host : Host)
    (insp : Nat → Option Nat) (cid : String) (inst : Instance) (ninfo : List Vif)
    (msg : String)
    (hnonempty : ninfo ≠ [])
    (hcpuset : get_cpu_set cfg host inst ≠ .indexError) :
    (start_container eng cfg host insp cid inst ninfo (some msg)).fst =
      .error (.deployFailure ("Cannot setup network: " ++ msg) inst.name) ∧
    Effect.kill cid ∈ (start_container eng cfg host insp cid inst ninfo (some msg)).snd ∧
    (start_container eng cfg host insp cid inst ninfo (some msg)).snd.getLast? =
      some (Effect.kill cid) ∧
    (∀ c f v, Effect.removeContainer c f v ∉
      (start_container eng cfg host insp cid inst ninfo (some msg)).snd) ∧
    (∀ c t, Effect.stop c t ∉
      (start_container eng cfg host insp cid inst ninfo (some msg)).snd) := by
  have hne : ninfo.isEmpty = false := by
    cases ninfo with
    | nil => exact absurd rfl hnonempty
    | cons a l => rfl
  cases hc : get_cpu_set cfg host inst with
  | indexError => exact absurd hc hcpuset
  | unset =>
      rw [start_container]
      simp [hc, hne, start_net_try, List.getLast?]
  | val s =>
      rw [start_container]
      simp [hc, hne, start_net_try, List.getLast?]

theorem start_kills_on_network_failure_witness :
    (start_container engVm1 cfgShare hostFour (fun _ => some 7) "cid1" instVm1
        [vifA] (some "boom")).fst =
      .error (.deployFailure "Cannot setup network: boom" "vm1") ∧
    Effect.kill "cid1" ∈ (start_container engVm1 cfgShare hostFour (fun _ => some 7)
        "cid1" instVm1 [vifA] (some "boom")).snd := by
  have h := start_kills_on_network_failure engVm1 cfgShare hostFour (fun _ => some 7)
      "cid1" instVm1 [vifA] "boom" (by decide) (by decide)
  exact ⟨h.1, h.2.1⟩

theorem strDrop_cpu (s : String) : strDrop ("cpu" ++ s) 3 = s := by
  rcases s with ⟨d⟩
  rfl

theorem join_set_str_map (l : List Nat) :
    join_set_str (l.map (fun c => "cpu" ++ toString c)) = commaJoin (l.map toString) := by
  cases l with
  | nil => rfl
  | cons h t =>
      simp only [List.map_cons, join_set_str, commaJoin, List.foldl_map, strDrop_cpu]

/-- C6: the computed cpu set is, under cpuset or mix mode, the comma-joined
processor numbers of the first vcpus entries of the allocation map
excluding the configured system-reserved set; under cpushare mode with a
configured (non-sentinel) system-reserved set, the comma-joined full
non-system processor set; and under cpushare mode with the default
sentinel, unset entirely. -/
theorem cpu_set_by_mode (cfg : Config) (host : Host) (inst : Instance) :
    (cfg.docker_cpu_mode = "cpuset" ∨ cfg.docker_cpu_mode = "mix" →
      get_cpu_set cfg host inst =
        ofJoin (commaJoin
          (((host.cpus.filter (fun c => !(host.reserved.contains c))).take
              inst.vcpus).map toString))) ∧
    (cfg.docker_cpu_mode = "cpushare" → cfg.docker_system_cpuset ≠ "-1" →
      get_cpu_set cfg host inst =
        ofJoin (commaJoin
          ((host.cpus.filter (fun c => !(host.reserved.contains c))).map toString))) ∧
    (cfg.docker_cpu_mode = "cpushare" → cfg.docker_system_cpuset = "-1" →
      get_cpu_set cfg host inst = .unset) := by
  refine ⟨?_, ?_, ?_⟩
  · rintro (h | h) <;>
      · simp [get_cpu_set, h, less_set_cpus]
        rw [← List.map_take, ← List.map_take, join_set_str_map]
  · intro hmode hsys
    simp [get_cpu_set, hmode, hsys, get_unsystem_cpu, join_set_str_map]
  · intro hmode hsys
    simp [get_cpu_set, hmode, hsys]

theorem cpu_set_by_mode_witness :
    get_cpu_set cfgSet hostFour instVm1 = .val "1,2" ∧
    get_cpu_set cfgMix hostFour instVm1 = .val "1,2" ∧
    get_cpu_set cfgShareRes hostFour instVm1 = .val "1,2,3" ∧
    get_cpu_set cfgShare hostFour instVm1 = .unset := by
  refine ⟨?_, ?_, ?_, ?_⟩
  · have h := (cpu_set_by_mode cfgSet hostFour instVm1).1 (Or.inl rfl)
    rw [h]; decide
  · have h := (cpu_set_by_mode cfgMix hostFour instVm1).1 (Or.inr rfl)
    rw [h]; decide
  · have h := (cpu_set_by_mode cfgShareRes hostFour instVm1).2.1 rfl (by decide)
    rw [h]; decide
  · exact (cpu_set_by_mode cfgShare hostFour instVm1).2.2 rfl rfl

theorem mem_if_single {α : Type} {c : Prop} [Decidable c] {x y : α}
    (h : x ∈ (if c then [y] else ([] : List α))) : c ∧ x = y := by
  by_cases hc : c
  · rw [if_pos hc] at h
    exact ⟨hc, List.mem_singleton.mp h⟩
  · rw [if_neg hc] at h
    cases h

theorem truthy_branch (o : Option String) :
    (if truthyS o then o else none) = none ∨
    (∃ v, (if truthyS o then o else none) = some v ∧ v ≠ "") := by
  rcases o with _ | v
  · simp [truthyS]
  · by_cases hv : v = ""
    · simp [truthyS, hv]
    · right
      exact ⟨v, by simp [truthyS, hv], hv⟩

theorem get_dir_volume_norm (meta : Option ImageMeta) :
    ((get_dir_volume meta).log_volume = none ∨
       ∃ v, (get_dir_volume meta).log_volume = some v ∧ v ≠ "") ∧
    ((get_dir_volume meta).data_volume = none ∨
       ∃ v, (get_dir_volume meta).data_volume = some v ∧ v ≠ "") ∧
    ((get_dir_volume meta).other_volume = none ∨
       ∃ v, (get_dir_volume meta).other_volume = some v ∧ v ≠ "") := by
  rcases meta with _ | ⟨props⟩
  · simp [get_dir_volume]
  rcases props with _ | p
  · simp [get_dir_volume]
  · exact ⟨truthy_branch _, truthy_branch _, truthy_branch _⟩

/-- C7: volume-container creation returns false and issues no engine call
when no volume role is declared; with at least one declared role it
returns true and issues exactly one engine call, creating the
network-disabled companion container named after the instance, with
exactly one host-to-container bind in the base slash role slash
name-underscore-ip colon path format per declared role and no bind for
undeclared roles. -/
theorem volume_container_creation (cfg : Config) (inst : Instance)
    (image_name : String) (meta : Option ImageMeta) (ninfo : List Vif) :
    ((get_dir_volume meta).log_volume = none ∧
     (get_dir_volume meta).data_volume = none ∧
     (get_dir_volume meta).other_volume = none →
        create_volume_containers cfg inst image_name meta ninfo = (false, [])) ∧
    ((get_dir_volume meta).log_volume ≠ none ∨
     (get_dir_volume meta).data_volume ≠ none ∨
     (get_dir_volume meta).other_volume ≠ none →
        create_volume_containers cfg inst image_name meta ninfo =
          (true, [Effect.createContainer image_name (inst.name ++ "_vol") true
            ((get_dir_volume meta).log_volume.toList ++
             (get_dir_volume meta).data_volume.toList ++
             (get_dir_volume meta).other_volume.toList)
            (((get_dir_volume meta).log_volume.map (fun v =>
                cfg.dir_volume_path ++ "/log/" ++ inst.name ++ "_" ++
                  find_first_ip ninfo ++ ":" ++ v)).toList ++
             ((get_dir_volume meta).data_volume.map (fun v =>
                cfg.dir_volume_path ++ "/data/" ++ inst.name ++ "_" ++
                  find_first_ip ninfo ++ ":" ++ v)).toList ++
             ((get_dir_volume meta).other_volume.map (fun v =>
                cfg.dir_volume_path ++ "/other/" ++ inst.name ++ "_" ++
                  find_first_ip ninfo ++ ":" ++ v)).toList)])) := by
  obtain ⟨hl, hd, ho⟩ := get_dir_volume_norm meta
  rcases hl with hl | ⟨lv, hl, hlv⟩ <;>
    rcases hd with hd | ⟨dvv, hd, hdv⟩ <;>
      rcases ho with ho | ⟨ov, ho, hov⟩ <;>
        constructor <;>
          · intro h
            simp_all [create_volume_containers, truthyS]

/-- An image metadata record declaring log and other volumes but no data
volume, used by the concrete witnesses. -/
def metaLogOther : Option ImageMeta :=
  some { properties := some { log_volume := some "/var/log/app",
                              data_volume := none,
                              other_volume := some "/opt/data" } }

theorem volume_container_creation_witness :
    create_volume_containers cfgShare instVm1 "imgA" none [vifA] = (false, []) ∧
    create_volume_containers cfgShare instVm1 "imgA" metaLogOther [vifA] =
      (true, [Effect.createContainer "imgA" "vm1_vol" true
        ["/var/log/app", "/opt/data"]
        ["/os_docker_volume/log/vm1_10.0.0.5:/var/log/app",
         "/os_docker_volume/other/vm1_10.0.0.5:/opt/data"]]) := by
  constructor
  · exact (volume_container_creation cfgShare instVm1 "imgA" none [vifA]).1
      (by decide)
  · have h := (volume_container_creation cfgShare instVm1 "imgA" metaLogOther
      [vifA]).2 (by decide)
    rw [h]
    decide

/-- C8: when the companion container exists, volume-container destruction
first force-removes it together with its anonymous volumes and then
removes exactly those of the three possible role directories that exist on
disk, never touching (or failing on) an absent one and never consulting
the image metadata; when the companion does not exist it does nothing. -/
theorem volume_container_destroy (cfg : Config) (eng : Engine) (host : Host)
    (inst : Instance) (ninfo : List Vif) :
    (exist_container eng (inst.name ++ "_vol") = false →
      destroy_volume_container cfg eng host inst ninfo = []) ∧
    (exist_container eng (inst.name ++ "_vol") = true →
      destroy_volume_container cfg eng host inst ninfo =
        Effect.removeContainer (inst.name ++ "_vol") true true ::
          ((if host.isdir (cfg.dir_volume_path ++ "/log/" ++ inst.name ++ "_" ++
              find_first_ip ninfo) = true then
              [Effect.rmtree (cfg.dir_volume_path ++ "/log/" ++ inst.name ++ "_" ++
                find_first_ip ninfo)] else []) ++
           (if host.isdir (cfg.dir_volume_path ++ "/data/" ++ inst.name ++ "_" ++
              find_first_ip ninfo) = true then
              [Effect.rmtree (cfg.dir_volume_path ++ "/data/" ++ inst.name ++ "_" ++
                find_first_ip ninfo)] else []) ++
           (if host.isdir (cfg.dir_volume_path ++ "/other/" ++ inst.name ++ "_" ++
              find_first_ip ninfo) = true then
              [Effect.rmtree (cfg.dir_volume_path ++ "/other/" ++ inst.name ++ "_" ++
                find_first_ip ninfo)] else []) ) ∧
      (∀ d, Effect.rmtree d ∈ destroy_volume_container cfg eng host inst ninfo →
        host.isdir d = true)) := by
  constructor
  · intro h
    simp [destroy_volume_container, h]
  · intro h
    constructor
    · simp [destroy_volume_container, h]
    · intro d hd
      simp only [destroy_volume_container, h, if_true] at hd
      rcases List.mem_cons.mp hd with hd | hd
      · exact Effect.noConfusion hd
      rcases List.mem_append.mp hd with hd | hd
      · rcases List.mem_append.mp hd with hd | hd
        · obtain ⟨hc, hde⟩ := mem_if_single hd
          injection hde with hde
          subst hde
          exact hc
        · obtain ⟨hc, hde⟩ := mem_if_single hd
          injection hde with hde
          subst hde
          exact hc
      · obtain ⟨hc, hde⟩ := mem_if_single hd
        injection hde with hde
        subst hde
        exact hc

/-- A host where only the log and other role directories of vm1 exist,
used by the concrete witnesses. -/
def hostVm1Dirs : Host :=
  { cpus := [0, 1, 2, 3], reserved := [0],
    isdir := fun p =>
      p == "/os_docker_volume/log/vm1_10.0.0.5" ||
      p == "/os_docker_volume/other/vm1_10.0.0.5",
    netnsExists := true }

/-- An engine holding the companion container vm1_vol, used by the
concrete witnesses. -/
def engVm1Vol : Engine :=
  { containers := [{ names := ["/vm1_vol"], id := "cidv" }],
    inspectById := fun i =>
      { id := i, pid := 7, running := true, memory := 512, cpuShares := 2048 },
    stopOutcome := fun _ => .ok }

theorem volume_container_destroy_witness :
    destroy_volume_container cfgShare engEmpty hostVm1Dirs instVm1 [vifA] = [] ∧
    destroy_volume_container cfgShare engVm1Vol hostVm1Dirs instVm1 [vifA] =
      [Effect.removeContainer "vm1_vol" true true,
       Effect.rmtree "/os_docker_volume/log/vm1_10.0.0.5",
       Effect.rmtree "/os_docker_volume/other/vm1_10.0.0.5"] := by
  constructor
  · exact (volume_container_destroy cfgShare engEmpty hostVm1Dirs instVm1 [vifA]).1
      (by decide)
  · have h := ((volume_container_destroy cfgShare engVm1Vol hostVm1Dirs instVm1
      [vifA]).2 (by decide)).1
    rw [h]
    decide

end NovaDocker
